import Mathlib

/-
Shallow embedding of Kaidenki/nestjs-cloudinary (src/cloudinary.service.ts).

The service is a thin adapter over the cloudinary SDK.  External effects
(the remote ping, the upload stream, the path upload, the vendor signing
function, the sharp resize) are modelled as explicit outcome parameters or
function parameters; promise settlement is modelled by an explicit
PromiseState, and the executor of uploadFile is modelled as a trace of
events so that ordering and written bytes can be stated.
-/

/-- Module options injected at construction: cloud_name, api_key, api_secret
plus an open-ended bag of extra vendor options (CloudinaryModuleOptions). -/
structure CloudinaryModuleOptions where
  cloud_name : String
  api_key : String
  api_secret : String
  extraOptions : List (String × String)
  deriving DecidableEq, Repr

/-- Severity of a logger call (logger.log / logger.warn / logger.error). -/
inductive Severity where
  | log
  | warn
  | error
  deriving DecidableEq, Repr

/-- One logger invocation. -/
structure LogEntry where
  severity : Severity
  message : String
  deriving DecidableEq, Repr

/-- Response of cloudinary.api.ping, of which the code reads res.status. -/
structure PingResponse where
  status : String
  deriving DecidableEq, Repr

/-- Error descriptor of cloudinary.api.ping, of which the code reads err.error. -/
structure PingError where
  error : String
  deriving DecidableEq, Repr

/-- A settled promise: fulfilled with a value or rejected with an error. -/
inductive Settled (ε α : Type) where
  | fulfilled (v : α)
  | rejected (e : ε)
  deriving DecidableEq, Repr

/-- Semantics of promise.then(onFulfilled) where the handler only logs:
a fulfilled promise runs the handler, a rejected promise passes the
rejection through unhandled. -/
def promiseThenLog {ε α : Type} (p : Settled ε α) (onFulfilled : α → List LogEntry) :
    Settled ε Unit × List LogEntry :=
  match p with
  | .fulfilled v => (.fulfilled (), onFulfilled v)
  | .rejected e => (.rejected e, [])

/-- Semantics of promise.catch(onRejected) where the handler only logs:
a rejection is absorbed and the handler's logs are appended. -/
def promiseCatchLog {ε : Type} (p : Settled ε Unit × List LogEntry)
    (onRejected : ε → List LogEntry) : Settled ε Unit × List LogEntry :=
  match p.1 with
  | .fulfilled _ => p
  | .rejected e => (.fulfilled (), p.2 ++ onRejected e)

/-- Embedding of CloudinaryService.pingCloudinary: the remote ping outcome is
chained through .then (log success status) and .catch (warn + error log). -/
def pingCloudinary (pingCall : Settled PingError PingResponse) :
    Settled PingError Unit × List LogEntry :=
  promiseCatchLog
    (promiseThenLog pingCall fun res =>
      [⟨Severity.log, "Cloudinary connection " ++ res.status⟩])
    (fun err =>
      [⟨Severity.warn, "Cloudinary connection failed."⟩,
       ⟨Severity.error, err.error⟩])

/-- C1: for every outcome of the remote ping call, pingCloudinary completes
normally (the resulting chain is fulfilled, never rejected): a remote
failure is only logged. -/
theorem pingCloudinary_never_rejects (pingCall : Settled PingError PingResponse) :
    (pingCloudinary pingCall).1 = Settled.fulfilled () := by
  cases pingCall <;> rfl

/-- An uploadable file: byte buffer plus declared media-type string (IFile). -/
structure IFile where
  buffer : List Nat
  mimetype : String
  deriving DecidableEq, Repr

/-- Modelled from the spec: ISharpInputOptions (interfaces file absent from the
sources) — a resize-options bag with optional width/height/fit fields. -/
structure ISharpInputOptions where
  width : Option Nat
  height : Option Nat
  fit : Option String
  deriving DecidableEq, Repr

/-- Resize options after the merge performed by uploadFile, in which width is
always present (defaulted when the caller did not supply it). -/
structure MergedSharpOptions where
  width : Nat
  height : Option Nat
  fit : Option String
  deriving DecidableEq, Repr

/-- Embedding of the object spread at line 87 of cloudinary.service.ts:
width 800 when absent, caller-supplied fields override. -/
def mergeSharpOptions (sharpOptions : ISharpInputOptions) : MergedSharpOptions :=
  { width := sharpOptions.width.getD 800,
    height := sharpOptions.height,
    fit := sharpOptions.fit }

/-- Vendor upload options, an open-ended passthrough bag. -/
abbrev UploadApiOptions := List (String × String)

/-- Opaque remote success descriptor (UploadApiResponse). -/
structure UploadApiResponse where
  body : String
  deriving DecidableEq, Repr

/-- Opaque remote error descriptor (UploadApiErrorResponse). -/
structure UploadApiErrorResponse where
  message : String
  deriving DecidableEq, Repr

/-- Outcome the remote upload reports via the upload callback. -/
inductive RemoteOutcome where
  | success (r : UploadApiResponse)
  | failure (e : UploadApiErrorResponse)
  deriving DecidableEq, Repr

/-- State of the promise returned to the caller: resolved, rejected, or never
settled at all. -/
inductive PromiseState where
  | resolved (r : UploadApiResponse)
  | rejected (e : UploadApiErrorResponse)
  | pending
  deriving DecidableEq, Repr

/-- Observable events of the uploadFile executor, in execution order:
opening the upload channel (the upload_stream call), completion of the sharp
resize, bytes written to the channel, the end-of-input signal, and the
error-severity log emitted in the upload callback. -/
inductive UploadEvent where
  | openChannel (options : UploadApiOptions)
  | resizeDone (opts : MergedSharpOptions) (output : List Nat)
  | chunkWritten (bytes : List Nat)
  | endSignalled
  | loggedError (e : UploadApiErrorResponse)
  deriving DecidableEq, Repr

/-- Embedding of file.mimetype.match of the image pattern anchored at the
string start: true exactly when the media type begins with the characters of
the word image. -/
def isImageMimetype (mimetype : String) : Bool :=
  "image".data.isPrefixOf mimetype.data

/-- Tail of the executor after the buffer to upload is fixed: push the chunk,
signal end of input, pipe into the channel; the upload callback then logs and
rejects on a remote error, or resolves with the remote response. -/
def streamAndSettle (remote : UploadApiOptions → List Nat → RemoteOutcome)
    (options : UploadApiOptions) (precedingEvents : List UploadEvent)
    (buf : List Nat) : List UploadEvent × PromiseState :=
  match remote options buf with
  | .success r =>
      (precedingEvents ++ [UploadEvent.chunkWritten buf, UploadEvent.endSignalled],
       PromiseState.resolved r)
  | .failure e =>
      (precedingEvents ++ [UploadEvent.chunkWritten buf, UploadEvent.endSignalled,
        UploadEvent.loggedError e],
       PromiseState.rejected e)

/-- Embedding of CloudinaryService.uploadFile.  The executor first calls
upload_stream (opening the channel), then, when resize options are present and
the media type matches the image pattern, awaits the sharp resize: on success
the resized buffer is streamed; on a resize failure the throw inside the async
executor does not settle the outer promise, which stays pending.  Otherwise the
original buffer is streamed.  The sharp resize and the remote upload are
passed in as function parameters. -/
def uploadFile (resize : List Nat → MergedSharpOptions → Except String (List Nat))
    (remote : UploadApiOptions → List Nat → RemoteOutcome)
    (file : IFile) (options : UploadApiOptions)
    (sharpOptions : Option ISharpInputOptions) :
    List UploadEvent × PromiseState :=
  let openEvent := UploadEvent.openChannel options
  match sharpOptions with
  | some so =>
      if isImageMimetype file.mimetype then
        let merged := mergeSharpOptions so
        match resize file.buffer merged with
        | .error _ => ([openEvent], PromiseState.pending)
        | .ok shrinkedImage =>
            streamAndSettle remote options
              [openEvent, UploadEvent.resizeDone merged shrinkedImage] shrinkedImage
      else streamAndSettle remote options [openEvent] file.buffer
  | none => streamAndSettle remote options [openEvent] file.buffer

/-- Embedding of CloudinaryService.uploadFileByPath: a plain promise executor
around uploader.upload; the callback logs and rejects on error, resolves
otherwise. -/
def uploadFileByPath (remote : String → UploadApiOptions → RemoteOutcome)
    (filePath : String) (options : UploadApiOptions) :
    List UploadEvent × PromiseState :=
  match remote filePath options with
  | .success r => ([], PromiseState.resolved r)
  | .failure e => ([UploadEvent.loggedError e], PromiseState.rejected e)

/-- The byte chunks written to the upload channel, in order. -/
def writtenChunks (trace : List UploadEvent) : List (List Nat) :=
  trace.filterMap fun e =>
    match e with
    | UploadEvent.chunkWritten bytes => some bytes
    | _ => none

/-- Recognizer of the resize-completion event. -/
def isResizeEvent : UploadEvent → Bool
  | UploadEvent.resizeDone _ _ => true
  | _ => false

/-- Recognizer of the channel-opening event. -/
def isOpenChannelEvent : UploadEvent → Bool
  | UploadEvent.openChannel _ => true
  | _ => false

/-- Recognizer of a bytes-written event. -/
def isChunkWrittenEvent : UploadEvent → Bool
  | UploadEvent.chunkWritten _ => true
  | _ => false

/-- True when an event matching p occurs and the first such occurrence is
strictly before the first event matching q. -/
def happensBefore (p q : UploadEvent → Bool) (trace : List UploadEvent) : Bool :=
  match trace.findIdx? p, trace.findIdx? q with
  | some i, some j => decide (i < j)
  | _, _ => false

/-- Modelled from the spec: ISignedUploadUrlOptions (interfaces file absent
from the sources) — an options bag with optional folder and eager fields plus
an open-ended bag of any other fields. -/
structure ISignedUploadUrlOptions where
  folder : Option String
  eager : Option (List String)
  extraFields : List (String × String)
  deriving DecidableEq, Repr

/-- Modelled from the spec: defaultCreateSignedUploadUrlOptions (constants
file absent from the sources) — folder defaults to the empty string, the eager
transformation list defaults to empty. -/
def defaultCreateSignedUploadUrlOptions : ISignedUploadUrlOptions :=
  { folder := some "", eager := some [], extraFields := [] }

/-- Signed-upload options after the single default merge at line 140 of
cloudinary.service.ts, in which folder and eager are always present. -/
structure MergedSignedUploadUrlOptions where
  folder : String
  eager : List String
  extraFields : List (String × String)
  deriving DecidableEq, Repr

/-- Embedding of the object spread over defaultCreateSignedUploadUrlOptions:
caller-supplied folder and eager override the defaults; any extra fields come
from the caller only. -/
def mergeSignedUploadUrlOptions (options : ISignedUploadUrlOptions) :
    MergedSignedUploadUrlOptions :=
  { folder := options.folder.getD (defaultCreateSignedUploadUrlOptions.folder.getD ""),
    eager := options.eager.getD (defaultCreateSignedUploadUrlOptions.eager.getD []),
    extraFields := options.extraFields }

/-- The exact parameter set handed to the vendor signing function:
timestamp, folder, eager, public_id. -/
structure SignedUploadParams where
  timestamp : String
  folder : String
  eager : List String
  public_id : String
  deriving DecidableEq, Repr

/-- The structure returned by createSignedUploadUrl, with all seven fields. -/
structure SignedUploadUrlResult where
  url : String
  publicId : String
  apiKey : String
  timestamp : String
  eager : List String
  folder : String
  signature : String
  deriving DecidableEq, Repr

/-- Embedding of CloudinaryService.createSignedUploadUrl.  The vendor signing
function (cloudinary.utils.api_sign_request, external SDK) is a function
parameter; the clock (Date.now in milliseconds) is the nowMs parameter, and
the timestamp is its floor division by 1000 rendered as a decimal string. -/
def createSignedUploadUrl (api_sign_request : SignedUploadParams → String → String)
    (cfg : CloudinaryModuleOptions) (nowMs : Nat)
    (publicId : String) (resourceType : String)
    (options : ISignedUploadUrlOptions) : SignedUploadUrlResult :=
  let merged := mergeSignedUploadUrlOptions options
  let url := "https://api.cloudinary.com/v1_1/" ++ cfg.cloud_name ++ "/"
    ++ resourceType ++ "/upload"
  let timestamp := Nat.repr (nowMs / 1000)
  let signature := api_sign_request
    { timestamp := timestamp, folder := merged.folder, eager := merged.eager,
      public_id := publicId }
    cfg.api_secret
  { url := url, publicId := publicId, apiKey := cfg.api_key,
    timestamp := timestamp, eager := merged.eager, folder := merged.folder,
    signature := signature }

/-- Service state: the injected module options and the configuration the
constructor applied to the shared client handle (a copy, via Object.assign). -/
structure ServiceState where
  storedOptions : CloudinaryModuleOptions
  handleConfig : CloudinaryModuleOptions
  deriving DecidableEq, Repr

/-- Embedding of the CloudinaryService constructor: the module options are
stored and a copy is applied to the client handle, once. -/
def constructService (options : CloudinaryModuleOptions) : ServiceState :=
  { storedOptions := options, handleConfig := options }

/-- Every gateway operation together with its caller-supplied arguments. -/
inductive GatewayOp where
  | pingOp
  | uploadFileOp (options : UploadApiOptions)
  | uploadFileByPathOp (filePath : String) (options : UploadApiOptions)
  | createSignedUploadUrlOp (nowMs : Nat) (publicId : String)
      (resourceType : String) (options : ISignedUploadUrlOptions)
  | getAssetOp (publicId : String) (options : UploadApiOptions)
  | listAssetsOp (options : UploadApiOptions)
  | deleteAssetsOp (publicIds : List String) (options : UploadApiOptions)
  | updateAssetOp (publicId : String) (options : UploadApiOptions)
  | renameAssetOp (fromPublicId toPublicId : String) (options : UploadApiOptions)
  | deleteAssetOp (publicId : String) (options : UploadApiOptions)
  | getTransformedUrlOp (publicId : String) (options : UploadApiOptions)
  | getImageTagOp (publicId : String) (options : UploadApiOptions)
  | getVideoTagOp (publicId : String) (options : UploadApiOptions)
  deriving DecidableEq, Repr

/-- The outbound SDK call each gateway operation makes, with the parameters it
forwards. -/
inductive ForwardedCall where
  | apiPingCall
  | uploadStreamCall (options : UploadApiOptions)
  | uploadCall (filePath : String) (options : UploadApiOptions)
  | signRequestCall (params : SignedUploadParams) (secret : String)
  | resourceCall (publicId : String) (options : UploadApiOptions)
  | resourcesCall (options : UploadApiOptions)
  | deleteResourcesCall (publicIds : List String) (options : UploadApiOptions)
  | updateCall (publicId : String) (options : UploadApiOptions)
  | renameCall (fromPublicId toPublicId : String) (options : UploadApiOptions)
  | destroyCall (publicId : String) (options : UploadApiOptions)
  | urlCall (publicId : String) (options : UploadApiOptions)
  | imageCall (publicId : String) (options : UploadApiOptions)
  | videoCall (publicId : String) (options : UploadApiOptions)
  deriving DecidableEq, Repr

/-- Embedding of the gateway methods as a step function on the service state:
each method reads the state, forwards its parameters to the SDK, and returns
the state it was given.  Only createSignedUploadUrl merges a layer of
defaults into the caller's options before forwarding. -/
def runGatewayOp (s : ServiceState) (op : GatewayOp) :
    ServiceState × ForwardedCall :=
  match op with
  | .pingOp => (s, .apiPingCall)
  | .uploadFileOp options => (s, .uploadStreamCall options)
  | .uploadFileByPathOp filePath options => (s, .uploadCall filePath options)
  | .createSignedUploadUrlOp nowMs publicId _resourceType options =>
      let merged := mergeSignedUploadUrlOptions options
      (s, .signRequestCall
        { timestamp := Nat.repr (nowMs / 1000), folder := merged.folder,
          eager := merged.eager, public_id := publicId }
        s.storedOptions.api_secret)
  | .getAssetOp publicId options => (s, .resourceCall publicId options)
  | .listAssetsOp options => (s, .resourcesCall options)
  | .deleteAssetsOp publicIds options => (s, .deleteResourcesCall publicIds options)
  | .updateAssetOp publicId options => (s, .updateCall publicId options)
  | .renameAssetOp fromPublicId toPublicId options =>
      (s, .renameCall fromPublicId toPublicId options)
  | .deleteAssetOp publicId options => (s, .destroyCall publicId options)
  | .getTransformedUrlOp publicId options => (s, .urlCall publicId options)
  | .getImageTagOp publicId options => (s, .imageCall publicId options)
  | .getVideoTagOp publicId options => (s, .videoCall publicId options)

/-- Concatenation of traces distributes over the chunks written. -/
theorem writtenChunks_append (xs ys : List UploadEvent) :
    writtenChunks (xs ++ ys) = writtenChunks xs ++ writtenChunks ys := by
  simp [writtenChunks, List.filterMap_append]

/-- A concrete signing function standing in for the vendor signing algorithm
in witnesses. -/
def sampleSign : SignedUploadParams → String → String :=
  fun p secret =>
    "sig:" ++ p.timestamp ++ ":" ++ p.folder ++ ":"
      ++ String.intercalate "," p.eager ++ ":" ++ p.public_id ++ ":" ++ secret

/-- Concrete module options for witnesses. -/
def sampleConfig : CloudinaryModuleOptions :=
  { cloud_name := "demo", api_key := "key123", api_secret := "secret456",
    extraOptions := [] }

/-- Concrete signed-upload options with an extra field. -/
def sampleSignedOptions1 : ISignedUploadUrlOptions :=
  { folder := some "folderA", eager := some ["w_400"],
    extraFields := [("tags", "x")] }

/-- Concrete signed-upload options agreeing with sampleSignedOptions1 on
folder and eager but with no extra field. -/
def sampleSignedOptions2 : ISignedUploadUrlOptions :=
  { folder := some "folderA", eager := some ["w_400"], extraFields := [] }

/-- C2: the signature returned by createSignedUploadUrl equals the vendor
signing function applied to exactly the parameter set of timestamp, folder,
eager and public_id with the configured API secret, so recomputing the
signature from the returned fields and the same secret reproduces it exactly;
and the whole computation is deterministic given the timestamp: two clock
readings with the same whole-second value yield identical results. -/
theorem createSignedUploadUrl_signature_roundtrip
    (api_sign_request : SignedUploadParams → String → String)
    (cfg : CloudinaryModuleOptions) (nowMs nowMs2 : Nat)
    (publicId resourceType : String) (options : ISignedUploadUrlOptions)
    (hclock : nowMs / 1000 = nowMs2 / 1000) :
    ((createSignedUploadUrl api_sign_request cfg nowMs publicId resourceType
        options).signature
      = api_sign_request
        { timestamp := (createSignedUploadUrl api_sign_request cfg nowMs publicId
            resourceType options).timestamp,
          folder := (createSignedUploadUrl api_sign_request cfg nowMs publicId
            resourceType options).folder,
          eager := (createSignedUploadUrl api_sign_request cfg nowMs publicId
            resourceType options).eager,
          public_id := (createSignedUploadUrl api_sign_request cfg nowMs publicId
            resourceType options).publicId }
        cfg.api_secret)
    ∧ createSignedUploadUrl api_sign_request cfg nowMs publicId resourceType options
      = createSignedUploadUrl api_sign_request cfg nowMs2 publicId resourceType
          options := by
  constructor
  · rfl
  · simp [createSignedUploadUrl, hclock]

/-- Witness for C2 at a concrete secret, clock pair and options value. -/
theorem createSignedUploadUrl_signature_roundtrip_witness :
    ((1700000000123 : Nat) / 1000 = (1700000000999 : Nat) / 1000)
    ∧ (((createSignedUploadUrl sampleSign sampleConfig 1700000000123 "abc" "image"
          sampleSignedOptions1).signature
        = sampleSign
          { timestamp := (createSignedUploadUrl sampleSign sampleConfig
              1700000000123 "abc" "image" sampleSignedOptions1).timestamp,
            folder := (createSignedUploadUrl sampleSign sampleConfig
              1700000000123 "abc" "image" sampleSignedOptions1).folder,
            eager := (createSignedUploadUrl sampleSign sampleConfig
              1700000000123 "abc" "image" sampleSignedOptions1).eager,
            public_id := (createSignedUploadUrl sampleSign sampleConfig
              1700000000123 "abc" "image" sampleSignedOptions1).publicId }
          sampleConfig.api_secret)
      ∧ createSignedUploadUrl sampleSign sampleConfig 1700000000123 "abc" "image"
          sampleSignedOptions1
        = createSignedUploadUrl sampleSign sampleConfig 1700000000999 "abc" "image"
            sampleSignedOptions1) :=
  ⟨by decide,
   createSignedUploadUrl_signature_roundtrip sampleSign sampleConfig
     1700000000123 1700000000999 "abc" "image" sampleSignedOptions1 (by decide)⟩

/-- C7: createSignedUploadUrl always returns the full seven-field structure:
url is the fixed upload endpoint built from the configured cloud name and the
given resource type, apiKey is the configured API key, timestamp is the clock
reading floored to whole seconds, and folder, eager and signature are the
merged option values and the signature over them. -/
theorem createSignedUploadUrl_output_shape
    (api_sign_request : SignedUploadParams → String → String)
    (cfg : CloudinaryModuleOptions) (nowMs : Nat)
    (publicId resourceType : String) (options : ISignedUploadUrlOptions) :
    createSignedUploadUrl api_sign_request cfg nowMs publicId resourceType options
      = { url := "https://api.cloudinary.com/v1_1/" ++ cfg.cloud_name ++ "/"
            ++ resourceType ++ "/upload",
          publicId := publicId,
          apiKey := cfg.api_key,
          timestamp := Nat.repr (nowMs / 1000),
          eager := (mergeSignedUploadUrlOptions options).eager,
          folder := (mergeSignedUploadUrlOptions options).folder,
          signature := api_sign_request
            { timestamp := Nat.repr (nowMs / 1000),
              folder := (mergeSignedUploadUrlOptions options).folder,
              eager := (mergeSignedUploadUrlOptions options).eager,
              public_id := publicId }
            cfg.api_secret } := rfl

/-- C10: only the folder and eager fields of the options influence
createSignedUploadUrl: two options values agreeing on folder and eager give
identical results at the same timestamp, and the parameters forwarded to the
signing call agree as well. -/
theorem createSignedUploadUrl_depends_only_on_folder_eager
    (api_sign_request : SignedUploadParams → String → String)
    (cfg : CloudinaryModuleOptions) (s : ServiceState) (nowMs : Nat)
    (publicId resourceType : String) (o1 o2 : ISignedUploadUrlOptions)
    (hf : o1.folder = o2.folder) (he : o1.eager = o2.eager) :
    createSignedUploadUrl api_sign_request cfg nowMs publicId resourceType o1
      = createSignedUploadUrl api_sign_request cfg nowMs publicId resourceType o2
    ∧ (runGatewayOp s
        (GatewayOp.createSignedUploadUrlOp nowMs publicId resourceType o1)).2
      = (runGatewayOp s
          (GatewayOp.createSignedUploadUrlOp nowMs publicId resourceType o2)).2 := by
  constructor
  · simp [createSignedUploadUrl, mergeSignedUploadUrlOptions, hf, he]
  · simp [runGatewayOp, mergeSignedUploadUrlOptions, hf, he]

/-- Witness for C10 at two concrete options values that differ in an extra
field only. -/
theorem createSignedUploadUrl_depends_only_on_folder_eager_witness :
    (sampleSignedOptions1.folder = sampleSignedOptions2.folder
     ∧ sampleSignedOptions1.eager = sampleSignedOptions2.eager)
    ∧ (createSignedUploadUrl sampleSign sampleConfig 1700000000123 "abc" "image"
          sampleSignedOptions1
        = createSignedUploadUrl sampleSign sampleConfig 1700000000123 "abc" "image"
            sampleSignedOptions2
       ∧ (runGatewayOp (constructService sampleConfig)
            (GatewayOp.createSignedUploadUrlOp 1700000000123 "abc" "image"
              sampleSignedOptions1)).2
          = (runGatewayOp (constructService sampleConfig)
              (GatewayOp.createSignedUploadUrlOp 1700000000123 "abc" "image"
                sampleSignedOptions2)).2) :=
  ⟨⟨rfl, rfl⟩,
   createSignedUploadUrl_depends_only_on_folder_eager sampleSign sampleConfig
     (constructService sampleConfig) 1700000000123 "abc" "image"
     sampleSignedOptions1 sampleSignedOptions2 rfl rfl⟩

/-- A concrete resize function standing in for sharp in witnesses: it
prepends a byte, so its output differs from its input. -/
def sampleResize : List Nat → MergedSharpOptions → Except String (List Nat) :=
  fun b _ => Except.ok (0 :: b)

/-- A concrete resize function that fails, as sharp does on a corrupt or
unsupported image buffer. -/
def sampleFailingResize : List Nat → MergedSharpOptions → Except String (List Nat) :=
  fun _ _ => Except.error "Input buffer contains unsupported image format"

/-- A concrete remote upload that always succeeds. -/
def sampleRemote : UploadApiOptions → List Nat → RemoteOutcome :=
  fun _ _ => RemoteOutcome.success ⟨"uploaded"⟩

/-- A concrete remote upload that always fails. -/
def sampleRemoteFailing : UploadApiOptions → List Nat → RemoteOutcome :=
  fun _ _ => RemoteOutcome.failure ⟨"Invalid api_key"⟩

/-- A concrete path-based remote upload that always succeeds. -/
def sampleRemoteByPath : String → UploadApiOptions → RemoteOutcome :=
  fun _ _ => RemoteOutcome.success ⟨"uploaded"⟩

/-- A concrete file with an image media type. -/
def sampleImageFile : IFile := { buffer := [1, 2, 3], mimetype := "image/png" }

/-- A concrete file with a non-image media type. -/
def sampleVideoFile : IFile := { buffer := [9, 9], mimetype := "video/mp4" }

/-- Concrete resize options leaving width unspecified. -/
def sampleSharpOptions : ISharpInputOptions :=
  { width := none, height := some 600, fit := none }

/-- Concrete resize options with an explicit width. -/
def sampleSharpOptionsWide : ISharpInputOptions :=
  { width := some 320, height := none, fit := none }

/-- C3: when resize options are present and the declared media type matches
the image pattern, the bytes written to the upload channel are exactly the
resize output, and the merged resize options default width to 800 while
caller-supplied fields override the default. -/
theorem uploadFile_resizes_image_uploads
    (resize : List Nat → MergedSharpOptions → Except String (List Nat))
    (remote : UploadApiOptions → List Nat → RemoteOutcome)
    (file : IFile) (options : UploadApiOptions) (so : ISharpInputOptions)
    (b2 : List Nat)
    (hm : isImageMimetype file.mimetype = true)
    (hr : resize file.buffer (mergeSharpOptions so) = Except.ok b2) :
    writtenChunks (uploadFile resize remote file options (some so)).1 = [b2]
    ∧ (mergeSharpOptions so).width = so.width.getD 800
    ∧ (∀ w, so.width = some w → (mergeSharpOptions so).width = w)
    ∧ (mergeSharpOptions so).height = so.height
    ∧ (mergeSharpOptions so).fit = so.fit := by
  refine ⟨?_, rfl, ?_, rfl, rfl⟩
  · cases hrem : remote options b2 <;>
      simp [uploadFile, hm, hr, streamAndSettle, hrem, writtenChunks]
  · intro w hw
    simp [mergeSharpOptions, hw]

/-- Witness for C3 at a concrete image file, resize function and options. -/
theorem uploadFile_resizes_image_uploads_witness :
    (isImageMimetype sampleImageFile.mimetype = true
     ∧ sampleResize sampleImageFile.buffer (mergeSharpOptions sampleSharpOptions)
        = Except.ok [0, 1, 2, 3])
    ∧ (writtenChunks (uploadFile sampleResize sampleRemote sampleImageFile []
          (some sampleSharpOptions)).1 = [[0, 1, 2, 3]]
       ∧ (mergeSharpOptions sampleSharpOptions).width
          = sampleSharpOptions.width.getD 800
       ∧ (∀ w, sampleSharpOptions.width = some w
            → (mergeSharpOptions sampleSharpOptions).width = w)
       ∧ (mergeSharpOptions sampleSharpOptions).height = sampleSharpOptions.height
       ∧ (mergeSharpOptions sampleSharpOptions).fit = sampleSharpOptions.fit) :=
  ⟨⟨rfl, rfl⟩,
   uploadFile_resizes_image_uploads sampleResize sampleRemote sampleImageFile []
     sampleSharpOptions [0, 1, 2, 3] rfl rfl⟩

/-- C4: when resize options are absent, or the declared media type does not
match the image pattern, the original buffer bytes are streamed unchanged and
no resize happens at all. -/
theorem uploadFile_nonimage_streams_original
    (resize : List Nat → MergedSharpOptions → Except String (List Nat))
    (remote : UploadApiOptions → List Nat → RemoteOutcome)
    (file : IFile) (options : UploadApiOptions)
    (sharpOptions : Option ISharpInputOptions)
    (h : sharpOptions = none ∨ isImageMimetype file.mimetype = false) :
    writtenChunks (uploadFile resize remote file options sharpOptions).1
      = [file.buffer]
    ∧ (uploadFile resize remote file options sharpOptions).1.all
        (fun e => !(isResizeEvent e)) = true := by
  rcases h with h | h
  · subst h
    cases hrem : remote options file.buffer <;>
      simp [uploadFile, streamAndSettle, hrem, writtenChunks, isResizeEvent]
  · cases sharpOptions with
    | none =>
        cases hrem : remote options file.buffer <;>
          simp [uploadFile, streamAndSettle, hrem, writtenChunks, isResizeEvent]
    | some so =>
        cases hrem : remote options file.buffer <;>
          simp [uploadFile, h, streamAndSettle, hrem, writtenChunks, isResizeEvent]

/-- Witness for C4 at a concrete non-image file with resize options present. -/
theorem uploadFile_nonimage_streams_original_witness :
    (some sampleSharpOptions = none
      ∨ isImageMimetype sampleVideoFile.mimetype = false)
    ∧ (writtenChunks (uploadFile sampleResize sampleRemote sampleVideoFile []
          (some sampleSharpOptions)).1 = [[9, 9]]
       ∧ (uploadFile sampleResize sampleRemote sampleVideoFile []
            (some sampleSharpOptions)).1.all
            (fun e => !(isResizeEvent e)) = true) :=
  ⟨Or.inr rfl,
   uploadFile_nonimage_streams_original sampleResize sampleRemote sampleVideoFile
     [] (some sampleSharpOptions) (Or.inr rfl)⟩

/-- C5: the code, evaluated at a corrupt image buffer with resize options
present, leaves the returned promise unsettled: the resize failure is thrown
inside the async promise executor, which never calls reject, so the promise
stays pending instead of rejecting with the failure as the specification
requires. -/
theorem uploadFile_resize_failure_leaves_promise_pending :
    uploadFile sampleFailingResize sampleRemote sampleImageFile []
      (some sampleSharpOptions)
      = ([UploadEvent.openChannel []], PromiseState.pending) := rfl

/-- C6 counterexample: at a concrete image upload that goes through the
resize path, a resize event does occur, yet the first channel-opening event
precedes it, so the claim that the resize step happens before the upload
channel is opened is false: upload_stream is called at the top of the
executor, before the sharp call. -/
theorem uploadFile_resize_not_before_openChannel :
    (uploadFile sampleResize sampleRemote sampleImageFile []
        (some sampleSharpOptions)).1.any isResizeEvent = true
    ∧ happensBefore isResizeEvent isOpenChannelEvent
        (uploadFile sampleResize sampleRemote sampleImageFile []
          (some sampleSharpOptions)).1 = false :=
  ⟨rfl, rfl⟩

/-- C6 amended: for every valid image buffer and present resize options, the
resize step completes before any bytes are written to the upload channel (the
channel itself is opened first, but the resized output is what is written, and
only after the resize finishes). -/
theorem uploadFile_resize_before_write
    (resize : List Nat → MergedSharpOptions → Except String (List Nat))
    (remote : UploadApiOptions → List Nat → RemoteOutcome)
    (file : IFile) (options : UploadApiOptions) (so : ISharpInputOptions)
    (b2 : List Nat)
    (hm : isImageMimetype file.mimetype = true)
    (hr : resize file.buffer (mergeSharpOptions so) = Except.ok b2) :
    happensBefore isResizeEvent isChunkWrittenEvent
      (uploadFile resize remote file options (some so)).1 = true := by
  cases hrem : remote options b2 <;>
    simp [uploadFile, hm, hr, streamAndSettle, hrem, happensBefore,
      List.findIdx?, isResizeEvent, isChunkWrittenEvent]

/-- Witness for the amended C6 at a concrete image upload. -/
theorem uploadFile_resize_before_write_witness :
    (isImageMimetype sampleImageFile.mimetype = true
     ∧ sampleResize sampleImageFile.buffer (mergeSharpOptions sampleSharpOptions)
        = Except.ok [0, 1, 2, 3])
    ∧ happensBefore isResizeEvent isChunkWrittenEvent
        (uploadFile sampleResize sampleRemote sampleImageFile []
          (some sampleSharpOptions)).1 = true :=
  ⟨⟨rfl, rfl⟩,
   uploadFile_resize_before_write sampleResize sampleRemote sampleImageFile []
     sampleSharpOptions [0, 1, 2, 3] rfl rfl⟩

/-- C8: for uploadFile, whenever a buffer reaches the remote upload, a remote
error makes the promise reject with exactly that error descriptor after an
error-severity log, and a remote success makes it resolve with the response
unmodified; uploadFileByPath has the same contract. -/
theorem upload_settles_with_remote_outcome
    (resize : List Nat → MergedSharpOptions → Except String (List Nat))
    (remote : UploadApiOptions → List Nat → RemoteOutcome)
    (remoteByPath : String → UploadApiOptions → RemoteOutcome)
    (file : IFile) (options : UploadApiOptions)
    (sharpOptions : Option ISharpInputOptions) (buf : List Nat) (filePath : String)
    (hbuf : writtenChunks (uploadFile resize remote file options sharpOptions).1
      = [buf]) :
    ((∀ r, remote options buf = RemoteOutcome.success r →
        (uploadFile resize remote file options sharpOptions).2
          = PromiseState.resolved r)
     ∧ (∀ e, remote options buf = RemoteOutcome.failure e →
        (uploadFile resize remote file options sharpOptions).2
          = PromiseState.rejected e
        ∧ UploadEvent.loggedError e
            ∈ (uploadFile resize remote file options sharpOptions).1))
    ∧ ((∀ r, remoteByPath filePath options = RemoteOutcome.success r →
        uploadFileByPath remoteByPath filePath options
          = ([], PromiseState.resolved r))
     ∧ (∀ e, remoteByPath filePath options = RemoteOutcome.failure e →
        uploadFileByPath remoteByPath filePath options
          = ([UploadEvent.loggedError e], PromiseState.rejected e))) := by
  refine ⟨?_, ⟨fun r h => by simp [uploadFileByPath, h],
    fun e h => by simp [uploadFileByPath, h]⟩⟩
  have main : ∀ evs b, writtenChunks evs = [] →
      (uploadFile resize remote file options sharpOptions
        = streamAndSettle remote options evs b) →
      ((∀ r, remote options buf = RemoteOutcome.success r →
          (uploadFile resize remote file options sharpOptions).2
            = PromiseState.resolved r)
       ∧ (∀ e, remote options buf = RemoteOutcome.failure e →
          (uploadFile resize remote file options sharpOptions).2
            = PromiseState.rejected e
          ∧ UploadEvent.loggedError e
              ∈ (uploadFile resize remote file options sharpOptions).1)) := by
    intro evs b hevs heq
    have hb : b = buf := by
      rw [heq] at hbuf
      cases hrem : remote options b <;>
        · simp only [streamAndSettle, hrem] at hbuf
          rw [writtenChunks_append, hevs] at hbuf
          simpa [writtenChunks] using hbuf
    subst hb
    constructor
    · intro r hrem
      rw [heq]
      simp [streamAndSettle, hrem]
    · intro e hrem
      rw [heq]
      simp [streamAndSettle, hrem]
  cases sharpOptions with
  | none =>
      exact main [UploadEvent.openChannel options] file.buffer rfl
        (by simp [uploadFile])
  | some so =>
      by_cases hm : isImageMimetype file.mimetype
      · cases hres : resize file.buffer (mergeSharpOptions so) with
        | error msg =>
            exfalso
            simp [uploadFile, hm, hres, writtenChunks] at hbuf
        | ok sh =>
            exact main [UploadEvent.openChannel options,
                UploadEvent.resizeDone (mergeSharpOptions so) sh] sh rfl
              (by simp [uploadFile, hm, hres])
      · exact main [UploadEvent.openChannel options] file.buffer rfl
          (by simp [uploadFile, hm])

/-- Witness for C8 at a concrete upload whose remote reports an error. -/
theorem upload_settles_with_remote_outcome_witness :
    (writtenChunks (uploadFile sampleResize sampleRemoteFailing sampleImageFile []
        (some sampleSharpOptions)).1 = [[0, 1, 2, 3]])
    ∧ (((∀ r, sampleRemoteFailing [] [0, 1, 2, 3] = RemoteOutcome.success r →
          (uploadFile sampleResize sampleRemoteFailing sampleImageFile []
            (some sampleSharpOptions)).2 = PromiseState.resolved r)
        ∧ (∀ e, sampleRemoteFailing [] [0, 1, 2, 3] = RemoteOutcome.failure e →
          (uploadFile sampleResize sampleRemoteFailing sampleImageFile []
            (some sampleSharpOptions)).2 = PromiseState.rejected e
          ∧ UploadEvent.loggedError e
              ∈ (uploadFile sampleResize sampleRemoteFailing sampleImageFile []
                  (some sampleSharpOptions)).1))
       ∧ ((∀ r, sampleRemoteByPath "a.jpg" [] = RemoteOutcome.success r →
            uploadFileByPath sampleRemoteByPath "a.jpg" []
              = ([], PromiseState.resolved r))
        ∧ (∀ e, sampleRemoteByPath "a.jpg" [] = RemoteOutcome.failure e →
            uploadFileByPath sampleRemoteByPath "a.jpg" []
              = ([UploadEvent.loggedError e], PromiseState.rejected e)))) :=
  ⟨rfl,
   upload_settles_with_remote_outcome sampleResize sampleRemoteFailing
     sampleRemoteByPath sampleImageFile [] (some sampleSharpOptions)
     [0, 1, 2, 3] "a.jpg" rfl⟩

/-- C9: the module options are applied to the client handle once, at
construction, and no gateway operation changes the service state; every
operation other than createSignedUploadUrl forwards its caller-supplied
options verbatim, and createSignedUploadUrl applies exactly one layer of
defaults (folder and eager) before forwarding to the signing call. -/
theorem gateway_never_mutates_options (s : ServiceState) (op : GatewayOp) :
    (runGatewayOp s op).1 = s
    ∧ (∀ o, constructService o = { storedOptions := o, handleConfig := o })
    ∧ (∀ publicId o, (runGatewayOp s (GatewayOp.getAssetOp publicId o)).2
        = ForwardedCall.resourceCall publicId o)
    ∧ (∀ o, (runGatewayOp s (GatewayOp.listAssetsOp o)).2
        = ForwardedCall.resourcesCall o)
    ∧ (∀ publicIds o, (runGatewayOp s (GatewayOp.deleteAssetsOp publicIds o)).2
        = ForwardedCall.deleteResourcesCall publicIds o)
    ∧ (∀ publicId o, (runGatewayOp s (GatewayOp.updateAssetOp publicId o)).2
        = ForwardedCall.updateCall publicId o)
    ∧ (∀ a b o, (runGatewayOp s (GatewayOp.renameAssetOp a b o)).2
        = ForwardedCall.renameCall a b o)
    ∧ (∀ publicId o, (runGatewayOp s (GatewayOp.deleteAssetOp publicId o)).2
        = ForwardedCall.destroyCall publicId o)
    ∧ (∀ publicId o, (runGatewayOp s (GatewayOp.getTransformedUrlOp publicId o)).2
        = ForwardedCall.urlCall publicId o)
    ∧ (∀ publicId o, (runGatewayOp s (GatewayOp.getImageTagOp publicId o)).2
        = ForwardedCall.imageCall publicId o)
    ∧ (∀ publicId o, (runGatewayOp s (GatewayOp.getVideoTagOp publicId o)).2
        = ForwardedCall.videoCall publicId o)
    ∧ (∀ o, (runGatewayOp s (GatewayOp.uploadFileOp o)).2
        = ForwardedCall.uploadStreamCall o)
    ∧ (∀ p o, (runGatewayOp s (GatewayOp.uploadFileByPathOp p o)).2
        = ForwardedCall.uploadCall p o)
    ∧ (∀ nowMs publicId resourceType o,
        (runGatewayOp s
          (GatewayOp.createSignedUploadUrlOp nowMs publicId resourceType o)).2
        = ForwardedCall.signRequestCall
            { timestamp := Nat.repr (nowMs / 1000),
              folder := o.folder.getD "", eager := o.eager.getD [],
              public_id := publicId }
            s.storedOptions.api_secret) := by
  refine ⟨?_, fun o => rfl, fun publicId o => rfl, fun o => rfl,
    fun publicIds o => rfl, fun publicId o => rfl, fun a b o => rfl,
    fun publicId o => rfl, fun publicId o => rfl, fun publicId o => rfl,
    fun publicId o => rfl, fun o => rfl, fun p o => rfl,
    fun nowMs publicId resourceType o => rfl⟩
  cases op <;> rfl
